import Mathlib

/-!
# Mars Shot: formal model of the physics / game-state engine

A shallow embedding of the core simulation code of the Mars Shot orbital
arcade game (`src/game.js`, the "Final Fixed Version" draft, which the
second draft mirrors for everything modelled here).  JavaScript numbers are
modelled by real numbers; DOM / canvas side effects are dropped, except
that calls to `spawnExplosion` are recorded as emitted events and the
`(success, reason)` arguments of `endGame` are recorded in an `outcome`
field, both of which the source only uses to drive the display.
-/

namespace MarsShot

open scoped Classical

noncomputable section

/-! ## Configuration constants (`GameConfig` in the source) -/

def G_BASE : ℝ := 0.28
def MAX_INPUT_DIST : ℝ := 300
def COLLISION_PADDING : ℝ := 15
def COLLISION_MIN_DIST : ℝ := 10
def LANDING_REWARD : ℤ := 100
def MAX_DISTANCE_SCORE : ℤ := 50

/-! ## 2D vectors (`class Vector`) -/

structure Vec where
  x : ℝ
  y : ℝ


def Vec.add (v w : Vec) : Vec := ⟨v.x + w.x, v.y + w.y⟩

def Vec.sub (v w : Vec) : Vec := ⟨v.x - w.x, v.y - w.y⟩

def Vec.mult (v : Vec) (n : ℝ) : Vec := ⟨v.x * n, v.y * n⟩

def Vec.mag (v : Vec) : ℝ := Real.sqrt (v.x * v.x + v.y * v.y)

/-- `Vector.normalize`: divides by the magnitude only when it is non-zero
(the source also tests `Number.isFinite(m)`, which in the real-number model
is always true), otherwise leaves the vector unchanged. -/
def Vec.normalize (v : Vec) : Vec :=
  if v.mag ≠ 0 then ⟨v.x / v.mag, v.y / v.mag⟩ else v

/-! ## Body types and bodies (`class Body`) -/

inductive BType where
  | sun
  | target_start
  | target_end
  | moon
  | saturn
  | obstacle
  | planet
  | rocket
deriving DecidableEq, BEq

/-- A simulated body.  `parentBody` holds the parent body's current position
and velocity (the source stores an object reference and reads those two
fields during `update`).  The rendering-only fields (`color`, `trail`,
`angle`, `shapeVertices`) are dropped. -/
structure Body where
  pos : Vec
  vel : Vec
  acc : Vec
  mass : ℝ
  radius : ℝ
  btype : BType
  isStatic : Bool
  orbitCenter : Option Vec
  parentBody : Option (Vec × Vec)
  orbitRadius : ℝ
  orbitAngle : ℝ
  orbitSpeed : ℝ
  oscillate : Bool
  oscillateSpeed : ℝ
  oscillateDist : ℝ
  timeOffset : ℝ
  startPos : Vec
  fuel : ℝ
  age : ℕ

/-- The `Body` constructor: `new Body(x, y, mass, radius, color, isStatic, type)`.
`radius` is pre-scaled by the global scale factor.  The source draws
`orbitAngle` from `Math.random()`; it is only ever read after being
overwritten by the world builder for orbiting bodies, so it is modelled
as 0 here. -/
def mkBody (x y mass radius scale : ℝ) (isStatic : Bool) (t : BType) : Body :=
  { pos := ⟨x, y⟩, vel := ⟨0, 0⟩, acc := ⟨0, 0⟩, mass := mass
  , radius := radius * scale, btype := t, isStatic := isStatic
  , orbitCenter := none, parentBody := none
  , orbitRadius := 0, orbitAngle := 0, orbitSpeed := 0
  , oscillate := false, oscillateSpeed := 0, oscillateDist := 0, timeOffset := 0
  , startPos := ⟨x, y⟩, fuel := 0, age := 0 }

/-- `Body.applyForce(f)`: accumulate `f / mass` into the acceleration. -/
def applyForce (b : Body) (f : Vec) : Body :=
  { b with acc := b.acc.add (f.mult (1 / b.mass)) }

/-- `Body.update()`: the motion-mode dispatch.  `frameCount` is the global
frame counter (used only by the oscillate branch).  The rocket's `age`
increments each update; the trail push and heading update are
rendering-only and dropped. -/
def Body.update (frameCount : ℕ) (b : Body) : Body :=
  let b1 :=
    match b.orbitCenter with
    | some c =>
        let a := b.orbitAngle + b.orbitSpeed
        { b with orbitAngle := a
               , pos := ⟨c.x + Real.cos a * b.orbitRadius,
                         c.y + Real.sin a * b.orbitRadius⟩
               , vel := ⟨-Real.sin a * b.orbitRadius * b.orbitSpeed,
                         Real.cos a * b.orbitRadius * b.orbitSpeed⟩ }
    | none =>
      match b.parentBody with
      | some pv =>
          let a := b.orbitAngle + b.orbitSpeed
          { b with orbitAngle := a
                 , pos := ⟨pv.1.x + Real.cos a * b.orbitRadius,
                           pv.1.y + Real.sin a * b.orbitRadius⟩
                 , vel := ⟨pv.2.x - Real.sin a * b.orbitRadius * b.orbitSpeed,
                           pv.2.y + Real.cos a * b.orbitRadius * b.orbitSpeed⟩ }
      | none =>
        if b.oscillate then
          { b with pos := ⟨b.pos.x,
              b.startPos.y +
                Real.sin ((frameCount : ℝ) * b.oscillateSpeed + b.timeOffset) *
                  b.oscillateDist⟩ }
        else if b.isStatic = false then
          { b with vel := b.vel.add b.acc, pos := b.pos.add (b.vel.add b.acc) }
        else b
  let b2 := { b1 with acc := ⟨0, 0⟩ }
  if b.btype = BType.rocket then { b2 with age := b2.age + 1 } else b2

/-! ## Game state (`gameState`), events, end-of-run -/

inductive Mode where
  | IDLE
  | FLYING
  | ENDED
deriving DecidableEq

inductive Reason where
  | landed
  | crashed
  | lost_space
deriving DecidableEq

inductive GEvent where
  | explosion (x y : ℝ)
deriving DecidableEq

structure GState where
  mode : Mode
  coins : ℤ
  closestDist : ℝ
  isThrusting : Bool
  isPaused : Bool
  shakeStrength : ℝ
  outcome : Option (Bool × Reason)
  events : List GEvent

/-- `spawnExplosion(x, y, color)`: sets the screen shake and spawns 30
particles; the particles are rendering-only, so the call is recorded as an
emitted event. -/
def spawnExplosion (x y : ℝ) (gs : GState) : GState :=
  { gs with shakeStrength := 10, events := gs.events ++ [GEvent.explosion x y] }

/-- `endGame(success, reason)`: enter `ENDED`, clear flags, award coins.
On failure the distance score is `max(0, 50 - floor(closestDist / 2))`,
overridden to 0 when the reason is `'crashed'`.  The caller-side
`physics.rocket = null` is modelled by `endGameR` below. -/
def endGame (success : Bool) (reason : Reason) (gs : GState) : GState :=
  if success then
    { gs with mode := Mode.ENDED, isThrusting := false, isPaused := false
            , outcome := some (true, reason)
            , coins := gs.coins + LANDING_REWARD }
  else
    let distScore0 := max 0 (MAX_DISTANCE_SCORE - ⌊gs.closestDist / 2⌋)
    let distScore := if reason = Reason.crashed then 0 else distScore0
    { gs with mode := Mode.ENDED, isThrusting := false, isPaused := false
            , outcome := some (false, reason)
            , coins := gs.coins + distScore }

/-- `endGame` together with the rocket destruction it performs
(`physics.rocket = null` inside `endGame` in the source). -/
def endGameR (success : Bool) (reason : Reason) (gs : GState) :
    Option Body × GState :=
  (none, endGame success reason gs)

/-- `UIManager.togglePause`: flips the pause flag, only while `FLYING`. -/
def togglePause (gs : GState) : GState :=
  if gs.mode = Mode.FLYING then { gs with isPaused := !gs.isPaused } else gs

/-! ## Upgrades (`UpgradeSystem`) -/

structure Upgrades where
  fuelLevel : ℕ
  thrustLevel : ℕ
  launchLevel : ℕ

structure Stats where
  maxFuel : ℝ
  thrustPower : ℝ
  launchForceMin : ℝ
  launchForceMax : ℝ

/-- `UpgradeSystem.getStats()`, with the global scale factor passed in. -/
def getStats (u : Upgrades) (scale : ℝ) : Stats :=
  { maxFuel := 100 + ((u.fuelLevel : ℝ) - 1) * 30
  , thrustPower := (0.1 + ((u.thrustLevel : ℝ) - 1) * 0.025) * scale
  , launchForceMin := 1.5 * scale
  , launchForceMax := (5 + ((u.launchLevel : ℝ) - 1)) * scale }

/-- One upgrade track (`UpgradeSystem.upgrades[type]`); the source field
`max` is called `maxLevel` here to avoid clashing with `Max.max`. -/
structure Track where
  level : ℕ
  cost : ℤ
  maxLevel : ℕ
  costMultiplier : ℝ

/-- `UpgradeSystem.buy(type)`: purchase succeeds only when below the level
cap and affordable; otherwise nothing changes (the DOM refresh calls are
dropped). -/
def buy (t : Track) (coins : ℤ) : Track × ℤ :=
  if t.level < t.maxLevel ∧ t.cost ≤ coins then
    ({ t with level := t.level + 1
            , cost := ⌊(t.cost : ℝ) * t.costMultiplier⌋ }, coins - t.cost)
  else (t, coins)

/-! ## Ambient read-only data: canvas geometry, mouse, upgrade levels -/

structure Config where
  scaleFactor : ℝ
  mouse : Vec
  width : ℝ
  height : ℝ
  cx : ℝ
  cy : ℝ
  upgrades : Upgrades

/-! ## Gravity, thrust and collision (`calculateGravity`) -/

/-- The thrust block at the top of `calculateGravity`: when the thrust
signal is on and there is fuel, push toward the aim point and burn 0.5
fuel, floored at 0.  The exhaust-particle spawn is rendering-only. -/
def thrustPhase (stats : Stats) (mouse : Vec) (gs : GState) (r : Body) : Body :=
  if gs.isThrusting = true ∧ r.fuel > 0 then
    let force := ((mouse.sub r.pos).normalize).mult stats.thrustPower
    let r1 := applyForce r force
    let f1 := r1.fuel - 0.5
    { r1 with fuel := if f1 < 0 then 0 else f1 }
  else r

/-- Closest-approach tracking after the body loop: find the destination
body and lower `closestDist` if the rocket is nearer than ever before. -/
def closestTrack (allBodies : List Body) (r : Body) (gs : GState) : GState :=
  match allBodies.find? (fun b => b.btype == BType.target_end) with
  | some mars =>
      let d := (r.pos.sub mars.pos).mag
      if d < gs.closestDist then { gs with closestDist := d } else gs
  | none => gs

/-- The `for (const body of physics.bodies)` loop of `calculateGravity`:
apply each body's clamped inverse-square gravity to the rocket, test for
collision and dispatch on the body type, short-circuiting (`return`) on any
collision.  `allBodies` is the full `physics.bodies` list, needed by the
closest-approach step after the loop. -/
def gravLoop (cfg : Config) (localG : ℝ) (allBodies : List Body) (gs : GState)
    (r : Body) : List Body → Option Body × GState
  | [] => (some r, closestTrack allBodies r gs)
  | b :: rest =>
      if b.btype = BType.rocket then gravLoop cfg localG allBodies gs r rest
      else
        let force0 := b.pos.sub r.pos
        let dist := force0.mag
        let dir := force0.normalize
        let distClamped := max dist (10 * cfg.scaleFactor)
        let strength0 := localG * b.mass / (distClamped * distClamped)
        let strength := if b.btype = BType.sun then strength0 * 1.0 else strength0
        let r1 := applyForce r (dir.mult strength)
        if dist < b.radius + COLLISION_PADDING * cfg.scaleFactor then
          if b.btype = BType.target_end then
            endGameR true Reason.landed gs
          else if b.btype = BType.target_start then
            if r1.age > 100 then
              (none, spawnExplosion r1.pos.x r1.pos.y
                       (endGame false Reason.crashed gs))
            else (some r1, gs)
          else
            (none, spawnExplosion r1.pos.x r1.pos.y
                     (endGame false Reason.crashed gs))
        else gravLoop cfg localG allBodies gs r1 rest

/-- `calculateGravity()`: no-op without a rocket or with an empty body
list; otherwise thrust, then the gravity/collision loop, then
closest-approach tracking.  Returns the surviving rocket (or `none`) and
the updated game state. -/
def calculateGravity (cfg : Config) (bodies : List Body)
    (rocket : Option Body) (gs : GState) : Option Body × GState :=
  match rocket with
  | none => (none, gs)
  | some r =>
      if bodies.length = 0 then (some r, gs)
      else
        let stats := getStats cfg.upgrades cfg.scaleFactor
        let localG := G_BASE * cfg.scaleFactor
        let r1 := thrustPhase stats cfg.mouse gs r
        gravLoop cfg localG bodies gs r1 bodies

/-! ## Launching (`getLaunchVector`, `launch`) -/

/-- `getLaunchVector()`: aim direction from the launch body, distance
capped at `MAX_INPUT_DIST * scale`, force interpolated between the min and
max launch force, and the launch body's own velocity added (the source
guard `if (earth.vel)` is always true: `vel` is always a `Vector`). -/
def getLaunchVector (cfg : Config) (bodies : List Body) : Vec × ℝ :=
  match bodies.find? (fun b => b.btype == BType.target_start) with
  | none => (⟨0, 0⟩, 0)
  | some earth =>
      let stats := getStats cfg.upgrades cfg.scaleFactor
      let dir0 := cfg.mouse.sub earth.pos
      let dist := dir0.mag
      let dir := dir0.normalize
      let powerRatio := min dist (MAX_INPUT_DIST * cfg.scaleFactor) /
        (MAX_INPUT_DIST * cfg.scaleFactor)
      let force := stats.launchForceMin +
        (stats.launchForceMax - stats.launchForceMin) * powerRatio
      let launchVel := (dir.mult force).add earth.vel
      (launchVel, powerRatio)

/-- `launch(e)`: build the rocket at the launch body, give it the computed
launch velocity and full fuel, push it out to the launch body's surface
along the direction of that velocity, and enter `FLYING`. -/
def launch (cfg : Config) (bodies : List Body) (rocket : Option Body)
    (gs : GState) : Option Body × GState :=
  match bodies.find? (fun b => b.btype == BType.target_start) with
  | none => (rocket, gs)
  | some earth =>
      let stats := getStats cfg.upgrades cfg.scaleFactor
      let vec := (getLaunchVector cfg bodies).1
      let r0 := mkBody earth.pos.x earth.pos.y 1 4 cfg.scaleFactor false
        BType.rocket
      let r1 := { r0 with vel := vec, fuel := stats.maxFuel }
      let dir := vec.normalize
      let off := dir.mult (earth.radius + 25 * cfg.scaleFactor)
      let r2 := { r1 with pos := r1.pos.add off }
      (some r2, { gs with mode := Mode.FLYING })

/-! ## The fixed-step loop driver (`loop`) -/

structure Sim where
  bodies : List Body
  rocket : Option Body
  gs : GState

/-- One fixed physics step of the `while` loop inside `loop()`:
`calculateGravity`, update every body, update the rocket and apply the
boundary-escape check.  Particle updates are rendering-only and dropped. -/
def physicsTick (cfg : Config) (fc : ℕ) (s : Sim) : Sim :=
  let rg := calculateGravity cfg s.bodies s.rocket s.gs
  let bodies1 := s.bodies.map (Body.update fc)
  match rg.1 with
  | none => { bodies := bodies1, rocket := none, gs := rg.2 }
  | some r =>
      let r2 := Body.update fc r
      let d := (Vec.mk (r2.pos.x - cfg.cx) (r2.pos.y - cfg.cy)).mag
      if d > max cfg.width cfg.height * 2 then
        { bodies := bodies1, rocket := none
        , gs := endGame false Reason.lost_space rg.2 }
      else { bodies := bodies1, rocket := some r2, gs := rg.2 }

/-- Drain the accumulator: `while (accumulator >= 1/60 && steps < 5)`,
counting down the remaining step budget.  Returns the leftover
accumulator and the advanced simulation. -/
def drainSteps (cfg : Config) (fc : ℕ) : ℕ → ℝ → Sim → ℝ × Sim
  | 0, acc, s => (acc, s)
  | Nat.succ n, acc, s =>
      if acc ≥ (1 : ℝ) / 60 then
        drainSteps cfg fc n (acc - 1 / 60) (physicsTick cfg fc s)
      else (acc, s)

structure LoopState where
  lastTimestamp : ℝ
  accumulator : ℝ
  frameCount : ℕ
  sim : Sim

/-- One animation frame of `loop()` at wall-clock time `now` (seconds):
accumulate the clamped delta, return immediately while paused, otherwise
decay the screen shake, drain up to 5 fixed steps and bump the frame
counter.  Drawing is dropped. -/
def loopFrame (cfg : Config) (now : ℝ) (ls : LoopState) : LoopState :=
  let delta0 := now - ls.lastTimestamp
  let delta := if delta0 > 0.25 then 0.25 else delta0
  let acc0 := ls.accumulator + delta
  if ls.sim.gs.isPaused = true then
    { ls with lastTimestamp := now, accumulator := acc0 }
  else
    let gs1 :=
      if ls.sim.gs.shakeStrength > 0 then
        let s1 := ls.sim.gs.shakeStrength * 0.9
        { ls.sim.gs with shakeStrength := if s1 < 0.5 then 0 else s1 }
      else ls.sim.gs
    let res := drainSteps cfg ls.frameCount 5 acc0 { ls.sim with gs := gs1 }
    { lastTimestamp := now, accumulator := res.1
    , frameCount := ls.frameCount + 1, sim := res.2 }

/-! ## Abbreviations used by the specification statements -/

/-- The collision test of `calculateGravity` for one body against a rocket
position: distance below `radius + COLLISION_PADDING * scale`. -/
def collidesWith (cfg : Config) (p : Vec) (b : Body) : Prop :=
  (b.pos.sub p).mag < b.radius + COLLISION_PADDING * cfg.scaleFactor

/-- Linear interpolation, as the specification words the launch force
(`force magnitude = lerp(launchForceMin, launchForceMax, ratio)`). -/
def lerp (a b t : ℝ) : ℝ := a + (b - a) * t

/-! ## Concrete instances used to exercise the theorems -/

/-- A canvas configuration: 800x800 arena, unit scale, all upgrades at
level 1, aim point at the origin. -/
def cfgQ : Config :=
  { scaleFactor := 1, mouse := ⟨0, 0⟩, width := 800, height := 800
  , cx := 400, cy := 400, upgrades := ⟨1, 1, 1⟩ }

/-- A coasting rocket sitting at the arena center with age `a`. -/
def rQ (a : ℕ) : Body :=
  { pos := ⟨400, 400⟩, vel := ⟨0, 0⟩, acc := ⟨0, 0⟩, mass := 1, radius := 4
  , btype := BType.rocket, isStatic := false, orbitCenter := none
  , parentBody := none, orbitRadius := 0, orbitAngle := 0, orbitSpeed := 0
  , oscillate := false, oscillateSpeed := 0, oscillateDist := 0, timeOffset := 0
  , startPos := ⟨400, 400⟩, fuel := 100, age := a }

/-- A mid-flight game state (not thrusting, not paused). -/
def gsQ : GState :=
  { mode := Mode.FLYING, coins := 0, closestDist := 500, isThrusting := false
  , isPaused := false, shakeStrength := 0, outcome := none, events := [] }

/-- A simulation with no celestial bodies and the coasting rocket. -/
def simQ (a : ℕ) : Sim := { bodies := [], rocket := some (rQ a), gs := gsQ }

/-- The same simulation, paused. -/
def simP : Sim := { bodies := [], rocket := some (rQ 0), gs := { gsQ with isPaused := true } }

/-- A loop state holding the paused simulation at wall-clock time 0. -/
def lsP : LoopState := { lastTimestamp := 0, accumulator := 0, frameCount := 0, sim := simP }

/-- The pause button being released between two frames: only the pause
flag changes (via `togglePause`), everything else is untouched. -/
def resumeFrame (ls : LoopState) : LoopState :=
  { ls with sim := { ls.sim with gs := togglePause ls.sim.gs } }

/-- A sun overlapping the rocket at the arena center. -/
def sunW : Body := mkBody 405 400 5000 30 1 true BType.sun

/-- A launch body overlapping the rocket at the arena center. -/
def startW : Body := mkBody 405 400 100 10 1 false BType.target_start

/-- A launch body at the origin moving right, with the aim point 300px to
its right. -/
def earthA : Body :=
  { mkBody 0 0 100 10 1 false BType.target_start with vel := ⟨2, 0⟩ }

/-- A launch body at the origin moving straight up. -/
def earthC : Body :=
  { mkBody 0 0 100 10 1 false BType.target_start with vel := ⟨0, 5⟩ }

/-- The configuration aiming 300px to the right of the origin. -/
def cfgA : Config :=
  { scaleFactor := 1, mouse := ⟨300, 0⟩, width := 800, height := 800
  , cx := 400, cy := 400, upgrades := ⟨1, 1, 1⟩ }

/-- A body on a fixed orbit of radius 5 around the origin. -/
def bOrb : Body :=
  { rQ 0 with btype := BType.obstacle, orbitCenter := some ⟨0, 0⟩, orbitRadius := 5 }

/-! # Lemmas -/

lemma Vec.mag_nonneg (v : Vec) : 0 ≤ v.mag := Real.sqrt_nonneg _

lemma Vec.mag_eq_of_sq (v : Vec) (r : ℝ) (hr : 0 ≤ r)
    (h : v.x * v.x + v.y * v.y = r * r) : v.mag = r := by
  rw [Vec.mag, h, Real.sqrt_mul_self hr]

lemma Vec.mag_zero_of (v : Vec) (hx : v.x = 0) (hy : v.y = 0) : v.mag = 0 := by
  rw [Vec.mag, hx, hy]
  simp

lemma Vec.normalize_of_mag_zero (v : Vec) (h : v.mag = 0) : v.normalize = v := by
  rw [Vec.normalize, if_neg]
  simp [h]

lemma Vec.mag_mult (v : Vec) (c : ℝ) : (v.mult c).mag = |c| * v.mag := by
  rw [Vec.mult, Vec.mag, Vec.mag,
    show v.x * c * (v.x * c) + v.y * c * (v.y * c) =
      (c * c) * (v.x * v.x + v.y * v.y) by ring,
    Real.sqrt_mul (mul_self_nonneg c), Real.sqrt_mul_self_eq_abs]

lemma Vec.sq_add_sq_eq_zero (v : Vec) (h : v.mag = 0) :
    v.x * v.x + v.y * v.y = 0 := by
  have h0 : 0 ≤ v.x * v.x + v.y * v.y :=
    add_nonneg (mul_self_nonneg _) (mul_self_nonneg _)
  have := Real.sqrt_eq_zero h0 |>.mp h
  exact this

lemma Vec.mag_normalize (v : Vec) (h : v.mag ≠ 0) : v.normalize.mag = 1 := by
  have hS : 0 ≤ v.x * v.x + v.y * v.y :=
    add_nonneg (mul_self_nonneg _) (mul_self_nonneg _)
  have hm : v.mag * v.mag = v.x * v.x + v.y * v.y := Real.mul_self_sqrt hS
  rw [Vec.normalize, if_pos h]
  apply Vec.mag_eq_of_sq _ 1 zero_le_one
  show v.x / v.mag * (v.x / v.mag) + v.y / v.mag * (v.y / v.mag) = 1 * 1
  field_simp
  linarith [hm]

/-! # Claim theorems -/

/-- C2: every transition into `ENDED` (all of which go through `endGame`)
destroys the rocket and adds a coin reward: exactly 100 on success; on
failure `max(0, 50 - floor(closestApproach / 2))`; and exactly 0 when the
failure reason is `'crashed'`, regardless of `closestApproach`. -/
theorem ended_reward (gs : GState) (success : Bool) (reason : Reason) :
    (endGameR success reason gs).1 = none ∧
    (endGameR success reason gs).2.mode = Mode.ENDED ∧
    (endGameR success reason gs).2.coins =
      gs.coins + (if success = true then 100
        else if reason = Reason.crashed then 0
        else max 0 (50 - ⌊gs.closestDist / 2⌋)) := by
  refine ⟨rfl, ?_, ?_⟩ <;> cases success <;> rcases reason <;>
    simp [endGameR, endGame, LANDING_REWARD, MAX_DISTANCE_SCORE]

/-- C8: `buy` succeeds exactly when the track is below its level cap and
affordable, in which case coins drop by the cost, the level rises by one
and the cost becomes `floor(cost * costMultiplier)`; otherwise the track
and the coins are both left exactly as they were. -/
theorem buy_spec (t : Track) (coins : ℤ) :
    ((t.level < t.maxLevel ∧ coins ≥ t.cost) →
      buy t coins =
        ({ t with level := t.level + 1
                , cost := ⌊(t.cost : ℝ) * t.costMultiplier⌋ }, coins - t.cost)) ∧
    (¬(t.level < t.maxLevel ∧ coins ≥ t.cost) → buy t coins = (t, coins)) := by
  constructor <;> intro h
  · rw [buy, if_pos h]
  · rw [buy, if_neg h]

/-- Witness for C8: buying the first fuel upgrade (cost 50, cap 5) with 60
coins leaves 10 coins, level 2 and next cost `floor(50 * 1.5) = 75`. -/
theorem buy_spec_witness :
    buy ⟨1, 50, 5, 1.5⟩ 60 = (⟨2, 75, 5, 1.5⟩, 10) := by
  have h := (buy_spec ⟨1, 50, 5, 1.5⟩ 60).1 ⟨by norm_num, by norm_num⟩
  rw [h]
  simp only [Prod.mk.injEq, Track.mk.injEq]
  refine ⟨⟨trivial, ?_, trivial, trivial⟩, by norm_num⟩
  rw [show (((50 : ℤ) : ℝ) * (1.5 : ℝ)) = ((75 : ℤ) : ℝ) by norm_num,
    Int.floor_intCast]

/-- C10: normalizing a zero-magnitude vector leaves it unchanged (no
division by zero), and consequently launching with the aim point exactly at
the launch body's position yields a launch velocity equal to the launch
body's own velocity. -/
theorem normalize_zero_safe :
    (∀ v : Vec, v.mag = 0 → v.normalize = v) ∧
    (∀ (cfg : Config) (bodies : List Body) (earth : Body),
      bodies.find? (fun b => b.btype == BType.target_start) = some earth →
      cfg.mouse = earth.pos → 0 < cfg.scaleFactor →
      (getLaunchVector cfg bodies).1 = earth.vel) := by
  constructor
  · exact fun v h => Vec.normalize_of_mag_zero v h
  · intro cfg bodies earth hf hm _
    have h0 : cfg.mouse.sub earth.pos = Vec.mk 0 0 := by
      rw [hm, Vec.sub]
      simp
    have hn : (cfg.mouse.sub earth.pos).normalize = Vec.mk 0 0 := by
      rw [h0]
      exact Vec.normalize_of_mag_zero _ (Vec.mag_zero_of _ rfl rfl)
    simp only [getLaunchVector, hf, hn, Vec.mult, Vec.add]
    show Vec.mk (0 * _ + earth.vel.x) (0 * _ + earth.vel.y) = earth.vel
    simp

/-- Witness for C10: the zero vector normalizes to itself, and aiming at a
launch body's own center hands the rocket exactly the body's velocity. -/
theorem normalize_zero_safe_witness :
    (Vec.mk 0 0).normalize = Vec.mk 0 0 ∧
    (getLaunchVector ({ cfgA with mouse := ⟨0, 0⟩ } : Config) [earthA]).1 =
      Vec.mk 2 0 := by
  constructor
  · exact normalize_zero_safe.1 _ (Vec.mag_zero_of _ rfl rfl)
  · have h := normalize_zero_safe.2 ({ cfgA with mouse := ⟨0, 0⟩ } : Config)
      [earthA] earthA rfl rfl (by norm_num [cfgA])
    exact h.trans rfl

/-- C4: the launch velocity is the normalized aim direction scaled by the
lerp of the launch force range at the capped distance ratio, plus the
launch body's own velocity; the ratio always lies in [0, 1]. -/
theorem launch_vector_spec (cfg : Config) (bodies : List Body) (earth : Body)
    (hf : bodies.find? (fun b => b.btype == BType.target_start) = some earth)
    (hs : 0 < cfg.scaleFactor) :
    (getLaunchVector cfg bodies).1 =
      (((cfg.mouse.sub earth.pos).normalize).mult
        (lerp (getStats cfg.upgrades cfg.scaleFactor).launchForceMin
              (getStats cfg.upgrades cfg.scaleFactor).launchForceMax
              ((getLaunchVector cfg bodies).2))).add earth.vel ∧
    (getLaunchVector cfg bodies).2 =
      min ((cfg.mouse.sub earth.pos).mag) (MAX_INPUT_DIST * cfg.scaleFactor) /
        (MAX_INPUT_DIST * cfg.scaleFactor) ∧
    0 ≤ (getLaunchVector cfg bodies).2 ∧ (getLaunchVector cfg bodies).2 ≤ 1 := by
  have hM : 0 < MAX_INPUT_DIST * cfg.scaleFactor := by
    have h300 : (0 : ℝ) < MAX_INPUT_DIST := by norm_num [MAX_INPUT_DIST]
    positivity
  simp only [getLaunchVector, hf]
  refine ⟨by rw [lerp], trivial, ?_, ?_⟩
  · exact div_nonneg (le_min (Vec.mag_nonneg _) hM.le) hM.le
  · rw [div_le_one hM]
    exact min_le_right _ _

/-- Witness for C4: launch body at the origin with velocity (2,0), aim
point (300,0) at unit scale and level-1 upgrades: full-power ratio 1, force
5, launch velocity (5,0) + (2,0) = (7,0). -/
theorem launch_vector_spec_witness :
    (getLaunchVector cfgA [earthA]).1 = Vec.mk 7 0 ∧
    (getLaunchVector cfgA [earthA]).2 = 1 := by
  have h := launch_vector_spec cfgA [earthA] earthA rfl (by norm_num [cfgA])
  have hsub : cfgA.mouse.sub earthA.pos = Vec.mk 300 0 := by
    show Vec.sub (Vec.mk 300 0) (Vec.mk 0 0) = Vec.mk 300 0
    rw [Vec.sub]
    norm_num
  have hm3 : (Vec.mk 300 0).mag = 300 :=
    Vec.mag_eq_of_sq _ 300 (by norm_num) (by norm_num)
  have hratio : (getLaunchVector cfgA [earthA]).2 = 1 := by
    rw [h.2.1, hsub, hm3]
    norm_num [MAX_INPUT_DIST, cfgA]
  refine ⟨?_, hratio⟩
  rw [h.1, hratio, hsub, Vec.normalize, if_pos (by rw [hm3]; norm_num), hm3]
  show Vec.add (Vec.mult _ _) (Vec.mk 2 0) = Vec.mk 7 0
  rw [Vec.mult, Vec.add]
  show Vec.mk (300 / 300 * _ + 2) (0 / 300 * _ + 0) = Vec.mk 7 0
  norm_num [lerp, getStats, cfgA]

/-- C7: a body on a fixed orbit sits exactly at distance `orbitRadius`
from its center after every update, with velocity
`radius * angularSpeed * (-sin angle, cos angle)`; a parent-relative orbit
additionally inherits the parent's velocity. -/
theorem orbit_exact (fc : ℕ) (b : Body) (hR : 0 ≤ b.orbitRadius) :
    (∀ c, b.orbitCenter = some c →
      (((Body.update fc b).pos).sub c).mag = b.orbitRadius ∧
      (Body.update fc b).vel =
        ⟨-Real.sin (b.orbitAngle + b.orbitSpeed) * b.orbitRadius * b.orbitSpeed,
          Real.cos (b.orbitAngle + b.orbitSpeed) * b.orbitRadius * b.orbitSpeed⟩) ∧
    (∀ pv, b.orbitCenter = none → b.parentBody = some pv →
      (((Body.update fc b).pos).sub pv.1).mag = b.orbitRadius ∧
      (Body.update fc b).vel =
        ⟨pv.2.x - Real.sin (b.orbitAngle + b.orbitSpeed) * b.orbitRadius * b.orbitSpeed,
          pv.2.y + Real.cos (b.orbitAngle + b.orbitSpeed) * b.orbitRadius * b.orbitSpeed⟩) := by
  have hpyth := Real.sin_sq_add_cos_sq (b.orbitAngle + b.orbitSpeed)
  constructor
  · intro c hc
    have hup : (Body.update fc b).pos =
        ⟨c.x + Real.cos (b.orbitAngle + b.orbitSpeed) * b.orbitRadius,
          c.y + Real.sin (b.orbitAngle + b.orbitSpeed) * b.orbitRadius⟩ ∧
        (Body.update fc b).vel =
        ⟨-Real.sin (b.orbitAngle + b.orbitSpeed) * b.orbitRadius * b.orbitSpeed,
          Real.cos (b.orbitAngle + b.orbitSpeed) * b.orbitRadius * b.orbitSpeed⟩ := by
      simp only [Body.update, hc]
      constructor <;> split <;> rfl
    refine ⟨?_, hup.2⟩
    rw [hup.1, Vec.sub]
    apply Vec.mag_eq_of_sq _ _ hR
    dsimp only
    nlinarith [hpyth]
  · intro pv hc hp
    have hup : (Body.update fc b).pos =
        ⟨pv.1.x + Real.cos (b.orbitAngle + b.orbitSpeed) * b.orbitRadius,
          pv.1.y + Real.sin (b.orbitAngle + b.orbitSpeed) * b.orbitRadius⟩ ∧
        (Body.update fc b).vel =
        ⟨pv.2.x - Real.sin (b.orbitAngle + b.orbitSpeed) * b.orbitRadius * b.orbitSpeed,
          pv.2.y + Real.cos (b.orbitAngle + b.orbitSpeed) * b.orbitRadius * b.orbitSpeed⟩ := by
      simp only [Body.update, hc, hp]
      constructor <;> split <;> rfl
    refine ⟨?_, hup.2⟩
    rw [hup.1, Vec.sub]
    apply Vec.mag_eq_of_sq _ _ hR
    dsimp only
    nlinarith [hpyth]

/-- Witness for C7: a body on a fixed orbit of radius 5 around the origin
(angle 0, speed 0) lands exactly 5 away from the center after its update. -/
theorem orbit_exact_witness :
    (0 : ℝ) ≤ bOrb.orbitRadius ∧
    (((Body.update 0 bOrb).pos).sub ⟨0, 0⟩).mag = 5 := by
  refine ⟨by norm_num [bOrb, rQ], ?_⟩
  exact ((orbit_exact 0 bOrb (by norm_num [bOrb, rQ])).1 ⟨0, 0⟩ rfl).1

/-! ## The gravity/collision loop: bookkeeping lemmas -/

lemma thrustPhase_pos (stats : Stats) (mouse : Vec) (gs : GState) (r : Body) :
    (thrustPhase stats mouse gs r).pos = r.pos := by
  rw [thrustPhase]
  split <;> rfl

lemma thrustPhase_age (stats : Stats) (mouse : Vec) (gs : GState) (r : Body) :
    (thrustPhase stats mouse gs r).age = r.age := by
  rw [thrustPhase]
  split <;> rfl

lemma thrustPhase_fuel_le (stats : Stats) (mouse : Vec) (gs : GState) (r : Body) :
    (thrustPhase stats mouse gs r).fuel ≤ r.fuel := by
  by_cases h : gs.isThrusting = true ∧ r.fuel > 0
  · rw [thrustPhase, if_pos h]
    show (if r.fuel - 0.5 < 0 then (0 : ℝ) else r.fuel - 0.5) ≤ r.fuel
    split
    · linarith [h.2]
    · linarith
  · rw [thrustPhase, if_neg h]

lemma thrustPhase_fuel_nonneg (stats : Stats) (mouse : Vec) (gs : GState)
    (r : Body) (h0 : 0 ≤ r.fuel) : 0 ≤ (thrustPhase stats mouse gs r).fuel := by
  by_cases h : gs.isThrusting = true ∧ r.fuel > 0
  · rw [thrustPhase, if_pos h]
    show 0 ≤ (if r.fuel - 0.5 < 0 then (0 : ℝ) else r.fuel - 0.5)
    split
    · norm_num
    · next hns => linarith [not_lt.mp hns]
  · rw [thrustPhase, if_neg h]
    exact h0

lemma thrustPhase_fuel_eq (stats : Stats) (mouse : Vec) (gs : GState) (r : Body)
    (h1 : gs.isThrusting = true) (h2 : r.fuel > 0) :
    (thrustPhase stats mouse gs r).fuel = max 0 (r.fuel - 0.5) := by
  rw [thrustPhase, if_pos ⟨h1, h2⟩]
  show (if r.fuel - 0.5 < 0 then (0 : ℝ) else r.fuel - 0.5) = max 0 (r.fuel - 0.5)
  split
  · next h => rw [max_eq_left (by linarith)]
  · next h => rw [max_eq_right (by linarith [not_lt.mp h])]

lemma thrustPhase_id (stats : Stats) (mouse : Vec) (gs : GState) (r : Body)
    (h : ¬(gs.isThrusting = true ∧ r.fuel > 0)) :
    thrustPhase stats mouse gs r = r := by
  rw [thrustPhase, if_neg h]

/-- A rocket that survives the gravity/collision loop keeps its fuel, age
and position: the loop only accumulates acceleration. -/
lemma gravLoop_some (cfg : Config) (localG : ℝ) (allB : List Body)
    (gs : GState) :
    ∀ (l : List Body) (r rr : Body) (gs' : GState),
      gravLoop cfg localG allB gs r l = (some rr, gs') →
      rr.fuel = r.fuel ∧ rr.age = r.age ∧ rr.pos = r.pos := by
  intro l
  induction l with
  | nil =>
      intro r rr gs' h
      simp only [gravLoop, Prod.mk.injEq, Option.some.injEq] at h
      obtain ⟨rfl, -⟩ := h
      exact ⟨rfl, rfl, rfl⟩
  | cons b rest ih =>
      intro r rr gs' h
      simp only [gravLoop] at h
      repeat' split at h
      all_goals first
        | (have hx := ih _ rr gs' h; exact hx)
        | (simp only [Prod.mk.injEq, Option.some.injEq] at h;
           obtain ⟨rfl, -⟩ := h;
           exact ⟨rfl, rfl, rfl⟩)
        | simp [endGameR, Prod.mk.injEq] at h

/-- Bodies whose collision test fails (or which are rocket-typed and thus
skipped) only add gravity to the rocket: running the loop over such a
prefix reaches the tail with a rocket differing at most in acceleration. -/
lemma gravLoop_clean_prefix (cfg : Config) (localG : ℝ) (gs : GState) :
    ∀ (pre : List Body) (r : Body),
      (∀ b' ∈ pre, b'.btype = BType.rocket ∨ ¬ collidesWith cfg r.pos b') →
      ∃ r₂ : Body, r₂.pos = r.pos ∧ r₂.age = r.age ∧ r₂.fuel = r.fuel ∧
        ∀ (allB l : List Body),
          gravLoop cfg localG allB gs r (pre ++ l) =
            gravLoop cfg localG allB gs r₂ l := by
  intro pre
  induction pre with
  | nil => exact fun r _ => ⟨r, rfl, rfl, rfl, fun allB l => rfl⟩
  | cons b' pre' ih =>
      intro r h
      by_cases hb : b'.btype = BType.rocket
      · obtain ⟨r₂, h1, h2, h3, h4⟩ :=
          ih r (fun x hx => h x (List.mem_cons_of_mem _ hx))
        refine ⟨r₂, h1, h2, h3, fun allB l => ?_⟩
        rw [List.cons_append]
        simp only [gravLoop]
        rw [if_pos hb]
        exact h4 allB l
      · have hnc : ¬ ((b'.pos.sub r.pos).mag <
            b'.radius + COLLISION_PADDING * cfg.scaleFactor) := by
          rcases h b' (List.mem_cons_self b' pre') with h' | h'
          · exact absurd h' hb
          · simpa [collidesWith] using h'
        obtain ⟨r₂, h1, h2, h3, h4⟩ :=
          ih (applyForce r
            (((b'.pos.sub r.pos).normalize).mult
              (if b'.btype = BType.sun
               then localG * b'.mass /
                 (max ((b'.pos.sub r.pos).mag) (10 * cfg.scaleFactor) *
                  max ((b'.pos.sub r.pos).mag) (10 * cfg.scaleFactor)) * 1.0
               else localG * b'.mass /
                 (max ((b'.pos.sub r.pos).mag) (10 * cfg.scaleFactor) *
                  max ((b'.pos.sub r.pos).mag) (10 * cfg.scaleFactor)))))
            (fun x hx => h x (List.mem_cons_of_mem _ hx))
        refine ⟨r₂, h1, h2, h3, fun allB l => ?_⟩
        rw [List.cons_append]
        simp only [gravLoop]
        rw [if_neg hb, if_neg hnc]
        exact h4 allB l

/-- Entering the body loop of `calculateGravity`: over a prefix of bodies
that are rocket-typed or do not collide with the rocket, the tick reaches
the next body with the rocket unchanged except for thrust fuel burn and
accumulated acceleration. -/
lemma calculateGravity_cons (cfg : Config) (pre : List Body) (b : Body)
    (r : Body) (gs : GState)
    (hpre : ∀ b' ∈ pre, b'.btype = BType.rocket ∨ ¬ collidesWith cfg r.pos b') :
    ∃ r₂ : Body, r₂.pos = r.pos ∧ r₂.age = r.age ∧
      r₂.fuel = (thrustPhase (getStats cfg.upgrades cfg.scaleFactor)
        cfg.mouse gs r).fuel ∧
      ∀ rest0 : List Body,
        calculateGravity cfg (pre ++ b :: rest0) (some r) gs =
          gravLoop cfg (G_BASE * cfg.scaleFactor) (pre ++ b :: rest0) gs r₂
            (b :: rest0) := by
  have hr1pos : (thrustPhase (getStats cfg.upgrades cfg.scaleFactor)
      cfg.mouse gs r).pos = r.pos := thrustPhase_pos _ _ _ _
  have hr1age : (thrustPhase (getStats cfg.upgrades cfg.scaleFactor)
      cfg.mouse gs r).age = r.age := thrustPhase_age _ _ _ _
  have hpre1 : ∀ b' ∈ pre, b'.btype = BType.rocket ∨
      ¬ collidesWith cfg (thrustPhase (getStats cfg.upgrades cfg.scaleFactor)
        cfg.mouse gs r).pos b' := by
    rw [hr1pos]
    exact hpre
  obtain ⟨r₂, h1, h2, h3, h4⟩ := gravLoop_clean_prefix cfg
    (G_BASE * cfg.scaleFactor) gs pre _ hpre1
  refine ⟨r₂, h1.trans hr1pos, h2.trans hr1age, h3, fun rest0 => ?_⟩
  simp only [calculateGravity]
  rw [if_neg (by simp)]
  exact h4 (pre ++ b :: rest0) (b :: rest0)

/-- C1: with a live rocket, the first body within collision range is
dispatched by type: the destination ends the run successfully; any body
other than the launch and destination bodies crashes the run with an
explosion at the rocket's position; in both cases the rocket is destroyed
and the remaining bodies of the tick are never processed. -/
theorem collision_dispatch (cfg : Config) (pre rest rest' : List Body)
    (b r : Body) (gs : GState)
    (hpre : ∀ b' ∈ pre, b'.btype = BType.rocket ∨ ¬ collidesWith cfg r.pos b')
    (hnr : b.btype ≠ BType.rocket)
    (hcol : collidesWith cfg r.pos b) :
    (b.btype = BType.target_end →
      calculateGravity cfg (pre ++ b :: rest) (some r) gs =
        endGameR true Reason.landed gs) ∧
    (b.btype ≠ BType.target_end → b.btype ≠ BType.target_start →
      calculateGravity cfg (pre ++ b :: rest) (some r) gs =
        (none, spawnExplosion r.pos.x r.pos.y
          (endGame false Reason.crashed gs))) ∧
    (b.btype ≠ BType.target_start →
      calculateGravity cfg (pre ++ b :: rest) (some r) gs =
        calculateGravity cfg (pre ++ b :: rest') (some r) gs) := by
  obtain ⟨r₂, hp, ha, hf, hmain⟩ := calculateGravity_cons cfg pre b r gs hpre
  have hcol₂ : (b.pos.sub r₂.pos).mag <
      b.radius + COLLISION_PADDING * cfg.scaleFactor := by
    rw [hp]
    simpa [collidesWith] using hcol
  have dispatch : b.btype ≠ BType.target_start → ∀ rest0 : List Body,
      calculateGravity cfg (pre ++ b :: rest0) (some r) gs =
        (if b.btype = BType.target_end then endGameR true Reason.landed gs
         else (none, spawnExplosion r.pos.x r.pos.y
           (endGame false Reason.crashed gs))) := by
    intro hts rest0
    rw [hmain rest0]
    simp only [gravLoop]
    rw [if_neg hnr, if_pos hcol₂]
    by_cases hte : b.btype = BType.target_end
    · rw [if_pos hte, if_pos hte]
    · rw [if_neg hte, if_neg hte, if_neg hts]
      simp only [applyForce]
      rw [hp]
  refine ⟨?_, ?_, ?_⟩
  · intro hte
    have hts : b.btype ≠ BType.target_start := by
      rw [hte]
      simp
    rw [dispatch hts rest, if_pos hte]
  · intro hte hts
    rw [dispatch hts rest, if_neg hte]
  · intro hts
    rw [dispatch hts rest, dispatch hts rest']

/-- Witness for C1: a sun overlapping the rocket yields a crash with
explosion at the rocket's position, destroys the rocket, and ignores any
further bodies in the list. -/
theorem collision_dispatch_witness :
    (calculateGravity cfgQ [sunW] (some (rQ 0)) gsQ).1 = none ∧
    (calculateGravity cfgQ [sunW] (some (rQ 0)) gsQ).2 =
      spawnExplosion 400 400 (endGame false Reason.crashed gsQ) ∧
    calculateGravity cfgQ [sunW] (some (rQ 0)) gsQ =
      calculateGravity cfgQ [sunW, sunW] (some (rQ 0)) gsQ := by
  have hcol : collidesWith cfgQ (rQ 0).pos sunW := by
    show (sunW.pos.sub (rQ 0).pos).mag <
      sunW.radius + COLLISION_PADDING * cfgQ.scaleFactor
    have hsub : sunW.pos.sub (rQ 0).pos = Vec.mk 5 0 := by
      show Vec.sub (Vec.mk 405 400) (Vec.mk 400 400) = Vec.mk 5 0
      rw [Vec.sub]
      norm_num
    rw [hsub, Vec.mag_eq_of_sq _ 5 (by norm_num) (by norm_num)]
    norm_num [sunW, mkBody, COLLISION_PADDING, cfgQ]
  have h := collision_dispatch cfgQ [] [] [sunW] sunW (rQ 0) gsQ (by simp)
    (by decide) hcol
  have h21 : calculateGravity cfgQ [sunW] (some (rQ 0)) gsQ =
      (none, spawnExplosion 400 400 (endGame false Reason.crashed gsQ)) :=
    h.2.1 (by decide) (by decide)
  have h22 : calculateGravity cfgQ [sunW] (some (rQ 0)) gsQ =
      calculateGravity cfgQ [sunW, sunW] (some (rQ 0)) gsQ :=
    h.2.2 (by decide)
  rw [h21]
  exact ⟨rfl, rfl, h21 ▸ h22⟩

/-- C3: an overlap with the launch body while `rocket.age ≤ 100` is
ignored (state unchanged, rocket alive); from age 101 on, the same overlap
ends the run as a crash with an explosion at the rocket's position. -/
theorem grace_period (cfg : Config) (pre rest : List Body) (b r : Body)
    (gs : GState)
    (hpre : ∀ b' ∈ pre, b'.btype = BType.rocket ∨ ¬ collidesWith cfg r.pos b')
    (hts : b.btype = BType.target_start)
    (hcol : collidesWith cfg r.pos b) :
    (r.age ≤ 100 →
      (calculateGravity cfg (pre ++ b :: rest) (some r) gs).2 = gs ∧
      ∃ rr : Body,
        (calculateGravity cfg (pre ++ b :: rest) (some r) gs).1 = some rr ∧
        rr.age = r.age ∧ rr.pos = r.pos) ∧
    (100 < r.age →
      calculateGravity cfg (pre ++ b :: rest) (some r) gs =
        (none, spawnExplosion r.pos.x r.pos.y
          (endGame false Reason.crashed gs))) := by
  obtain ⟨r₂, hp, ha, hf, hmain⟩ := calculateGravity_cons cfg pre b r gs hpre
  have hnr : b.btype ≠ BType.rocket := by
    rw [hts]
    simp
  have hnte : b.btype ≠ BType.target_end := by
    rw [hts]
    simp
  have hcol₂ : (b.pos.sub r₂.pos).mag <
      b.radius + COLLISION_PADDING * cfg.scaleFactor := by
    rw [hp]
    simpa [collidesWith] using hcol
  have hnsun : b.btype ≠ BType.sun := by
    rw [hts]
    simp
  rw [hmain rest]
  simp only [gravLoop]
  rw [if_neg hnr, if_pos hcol₂, if_neg hnte, if_pos hts, if_neg hnsun]
  constructor
  · intro h100
    split
    · next hage =>
        have h2 : r₂.age > 100 := hage
        rw [ha] at h2
        omega
    · refine ⟨rfl, _, rfl, ?_, ?_⟩
      · show r₂.age = r.age
        exact ha
      · show r₂.pos = r.pos
        exact hp
  · intro h101
    split
    · simp only [applyForce]
      rw [hp]
    · next hage =>
        have h2 : ¬(r₂.age > 100) := hage
        rw [ha] at h2
        omega

/-- Witness for C3: at age 100 the overlap with the launch body changes
nothing; at age 101 it crashes the run. -/
theorem grace_period_witness :
    (calculateGravity cfgQ [startW] (some (rQ 100)) gsQ).2 = gsQ ∧
    calculateGravity cfgQ [startW] (some (rQ 101)) gsQ =
      (none, spawnExplosion 400 400 (endGame false Reason.crashed gsQ)) := by
  have hcol : ∀ a : ℕ, collidesWith cfgQ ((rQ a).pos) startW := by
    intro a
    show (startW.pos.sub (rQ a).pos).mag <
      startW.radius + COLLISION_PADDING * cfgQ.scaleFactor
    have hsub : startW.pos.sub (rQ a).pos = Vec.mk 5 0 := by
      show Vec.sub (Vec.mk 405 400) (Vec.mk 400 400) = Vec.mk 5 0
      rw [Vec.sub]
      norm_num
    rw [hsub, Vec.mag_eq_of_sq _ 5 (by norm_num) (by norm_num)]
    norm_num [startW, mkBody, COLLISION_PADDING, cfgQ]
  constructor
  · exact ((grace_period cfgQ [] [] startW (rQ 100) gsQ (by simp) rfl
      (hcol 100)).1 (by norm_num [rQ])).1
  · exact (grace_period cfgQ [] [] startW (rQ 101) gsQ (by simp) rfl
      (hcol 101)).2 (by norm_num [rQ])

/-- `Body.update` never touches the fuel. -/
lemma update_fuel (fc : ℕ) (b : Body) : (Body.update fc b).fuel = b.fuel := by
  simp only [Body.update]
  repeat' split
  all_goals rfl

/-- A rocket that survives `calculateGravity` has burnt at most thrust
fuel and never goes negative. -/
lemma calculateGravity_fuel (cfg : Config) (bodies : List Body) (r rr : Body)
    (gs gs' : GState)
    (h : calculateGravity cfg bodies (some r) gs = (some rr, gs')) :
    rr.fuel ≤ r.fuel ∧ (0 ≤ r.fuel → 0 ≤ rr.fuel) := by
  simp only [calculateGravity] at h
  by_cases hl : bodies.length = 0
  · rw [if_pos hl] at h
    simp only [Prod.mk.injEq, Option.some.injEq] at h
    obtain ⟨rfl, -⟩ := h
    exact ⟨le_refl _, fun h0 => h0⟩
  · rw [if_neg hl] at h
    obtain ⟨hfu, -, -⟩ := gravLoop_some cfg (G_BASE * cfg.scaleFactor) bodies
      gs bodies _ rr gs' h
    constructor
    · rw [hfu]
      exact thrustPhase_fuel_le _ _ _ _
    · intro h0
      rw [hfu]
      exact thrustPhase_fuel_nonneg _ _ _ _ h0

/-- C6: across a physics tick the rocket's fuel never increases and never
goes negative; thrust burns exactly 0.5 fuel per tick, floored at 0, and
applies no change at all unless the thrust signal is on and fuel > 0. -/
theorem fuel_invariant (cfg : Config) (fc : ℕ) (s : Sim) (r rr : Body)
    (hr : s.rocket = some r)
    (hrr : (physicsTick cfg fc s).rocket = some rr) :
    (rr.fuel ≤ r.fuel ∧ (0 ≤ r.fuel → 0 ≤ rr.fuel)) ∧
    (∀ (stats : Stats) (mouse : Vec) (gs : GState) (rb : Body),
      gs.isThrusting = true → rb.fuel > 0 →
      (thrustPhase stats mouse gs rb).fuel = max 0 (rb.fuel - 0.5)) ∧
    (∀ (stats : Stats) (mouse : Vec) (gs : GState) (rb : Body),
      ¬(gs.isThrusting = true ∧ rb.fuel > 0) →
      thrustPhase stats mouse gs rb = rb) := by
  refine ⟨?_,
    fun stats mouse gs rb h1 h2 => thrustPhase_fuel_eq stats mouse gs rb h1 h2,
    fun stats mouse gs rb h => thrustPhase_id stats mouse gs rb h⟩
  simp only [physicsTick, hr] at hrr
  rcases hcg : calculateGravity cfg s.bodies (some r) s.gs with ⟨ro, gsx⟩
  rw [hcg] at hrr
  rcases ro with - | rx
  · simp at hrr
  · dsimp only at hrr
    split at hrr
    · simp at hrr
    · simp only [Option.some.injEq] at hrr
      subst hrr
      obtain ⟨h1, h2⟩ := calculateGravity_fuel cfg s.bodies r rx s.gs gsx hcg
      constructor
      · rw [update_fuel]
        exact h1
      · intro h0
        rw [update_fuel]
        exact h2 h0

/-- A frame that arrives while the game is paused only advances the
wall-clock bookkeeping: the timestamp moves and the (clamped) delta is
still added to the accumulator, but nothing of the simulation runs. -/
lemma loopFrame_paused (cfg : Config) (now : ℝ) (ls : LoopState)
    (h : ls.sim.gs.isPaused = true) :
    loopFrame cfg now ls =
      { ls with lastTimestamp := now
              , accumulator := ls.accumulator +
                  (if now - ls.lastTimestamp > 0.25 then 0.25
                   else now - ls.lastTimestamp) } := by
  simp only [loopFrame]
  rw [if_pos h]

/-- C5 (amended): while the pause flag is set, any number of frames leaves
every body position, the rocket (hence its fuel) and `closestDist`
untouched and consumes no physics step; but each paused frame still adds
its clamped wall-clock delta to the accumulator, so pause time backlogs
(and is later drained at up to 5 steps per resumed frame). -/
theorem paused_freeze (cfg : Config) (ls : LoopState) (ts : List ℝ)
    (hp : ls.sim.gs.isPaused = true) :
    (List.foldl (fun s t => loopFrame cfg t s) ls ts).sim = ls.sim ∧
    (List.foldl (fun s t => loopFrame cfg t s) ls ts).frameCount =
      ls.frameCount ∧
    ∀ now : ℝ, (loopFrame cfg now ls).accumulator =
      ls.accumulator + (if now - ls.lastTimestamp > 0.25 then 0.25
                        else now - ls.lastTimestamp) := by
  have aux : ∀ (ts0 : List ℝ) (ls0 : LoopState), ls0.sim.gs.isPaused = true →
      (List.foldl (fun s t => loopFrame cfg t s) ls0 ts0).sim = ls0.sim ∧
      (List.foldl (fun s t => loopFrame cfg t s) ls0 ts0).frameCount =
        ls0.frameCount := by
    intro ts0
    induction ts0 with
    | nil => exact fun ls0 _ => ⟨rfl, rfl⟩
    | cons t ts1 ih =>
        intro ls0 hp0
        simp only [List.foldl_cons]
        have h1 := loopFrame_paused cfg t ls0 hp0
        have hsim : (loopFrame cfg t ls0).sim = ls0.sim := by rw [h1]
        have hfc : (loopFrame cfg t ls0).frameCount = ls0.frameCount := by
          rw [h1]
        have hp1 : (loopFrame cfg t ls0).sim.gs.isPaused = true := by
          rw [hsim]
          exact hp0
        obtain ⟨a1, a2⟩ := ih (loopFrame cfg t ls0) hp1
        exact ⟨a1.trans hsim, a2.trans hfc⟩
  exact ⟨(aux ts ls hp).1, (aux ts ls hp).2,
    fun now => by rw [loopFrame_paused cfg now ls hp]⟩

/-- Witness for C5 (amended): two paused frames leave the paused
simulation untouched, while the first frame already moved 0.1s of wall
time into the accumulator. -/
theorem paused_freeze_witness :
    (List.foldl (fun s t => loopFrame cfgQ t s) lsP [0.1, 0.2]).sim = simP ∧
    (loopFrame cfgQ 0.1 lsP).accumulator = 0.1 := by
  have h := paused_freeze cfgQ lsP [0.1, 0.2] rfl
  refine ⟨h.1, ?_⟩
  rw [h.2.2 0.1]
  norm_num [lsP]

/-- One quiescent physics tick: with no celestial bodies and a rocket at
rest at the arena center, a tick only increments the rocket's age. -/
lemma physicsTick_quiescent (fc : ℕ) (a : ℕ) :
    physicsTick cfgQ fc (simQ a) = simQ (a + 1) := by
  have hcg : calculateGravity cfgQ [] (some (rQ a)) gsQ = (some (rQ a), gsQ) := by
    simp only [calculateGravity]
    rw [if_pos (show ([] : List Body).length = 0 from rfl)]
  have hup : Body.update fc (rQ a) = rQ (a + 1) := by
    simp only [Body.update, rQ]
    norm_num [Vec.add]
  simp only [physicsTick, simQ]
  rw [hcg]
  dsimp only
  rw [hup]
  have hcond : ¬((Vec.mk ((rQ (a + 1)).pos.x - cfgQ.cx)
      ((rQ (a + 1)).pos.y - cfgQ.cy)).mag > max cfgQ.width cfgQ.height * 2) := by
    have hm : (Vec.mk ((rQ (a + 1)).pos.x - cfgQ.cx)
        ((rQ (a + 1)).pos.y - cfgQ.cy)).mag = 0 := by
      apply Vec.mag_zero_of <;> norm_num [rQ, cfgQ]
    rw [hm]
    norm_num [cfgQ]
  rw [if_neg hcond]
  rfl

/-- Witness for C6: one tick of the coasting rocket keeps its 100 fuel
unchanged and non-negative. -/
theorem fuel_invariant_witness :
    (rQ 1).fuel ≤ (rQ 0).fuel ∧ (0 ≤ (rQ 0).fuel → 0 ≤ (rQ 1).fuel) := by
  have h := fuel_invariant cfgQ 0 (simQ 0) (rQ 0) (rQ 1) rfl
    (by rw [physicsTick_quiescent]; rfl)
  exact h.1

/-- One drained step of the resume frame over the quiescent simulation. -/
lemma drainSteps_quiescent_step (n : ℕ) (acc : ℝ) (a : ℕ)
    (h : acc ≥ (1 : ℝ) / 60) :
    drainSteps cfgQ 0 (n + 1) acc (simQ a) =
      drainSteps cfgQ 0 n (acc - 1 / 60) (simQ (a + 1)) := by
  simp only [drainSteps]
  rw [if_pos h, physicsTick_quiescent]

/-- Counterexample to C5 as stated: with the paused simulation `lsP`, one
frame 0.2s later leaves the simulation frozen but pushes the 0.2s into the
accumulator; releasing the pause button and running one more frame at the
very same wall-clock instant (zero elapsed time since resume) executes 5
physics steps out of the paused backlog — the rocket's age jumps from 0
to 5, i.e. the time accumulated during the pause IS applied as a backlog
of physics steps on resume. -/
theorem pause_backlog_cex :
    (loopFrame cfgQ 0.2 lsP).accumulator = 0.2 ∧
    (loopFrame cfgQ 0.2 lsP).sim = simP ∧
    Option.map Body.age
      ((loopFrame cfgQ 0.2 (resumeFrame (loopFrame cfgQ 0.2 lsP))).sim.rocket) =
      some 5 := by
  have h1 : loopFrame cfgQ 0.2 lsP =
      { lsP with lastTimestamp := 0.2, accumulator := 0.2 } := by
    rw [loopFrame_paused cfgQ 0.2 lsP rfl]
    norm_num [lsP, LoopState.mk.injEq]
  have hres : resumeFrame (loopFrame cfgQ 0.2 lsP) =
      { lastTimestamp := 0.2, accumulator := 0.2, frameCount := 0
      , sim := simQ 0 } := by
    rw [h1]
    rfl
  have e1 : drainSteps cfgQ 0 5 0.2 (simQ 0) =
      drainSteps cfgQ 0 4 (0.2 - 1 / 60) (simQ 1) :=
    drainSteps_quiescent_step 4 0.2 0 (by norm_num)
  have e2 : drainSteps cfgQ 0 4 (0.2 - 1 / 60) (simQ 1) =
      drainSteps cfgQ 0 3 (0.2 - 1 / 60 - 1 / 60) (simQ 2) :=
    drainSteps_quiescent_step 3 (0.2 - 1 / 60) 1 (by norm_num)
  have e3 : drainSteps cfgQ 0 3 (0.2 - 1 / 60 - 1 / 60) (simQ 2) =
      drainSteps cfgQ 0 2 (0.2 - 1 / 60 - 1 / 60 - 1 / 60) (simQ 3) :=
    drainSteps_quiescent_step 2 (0.2 - 1 / 60 - 1 / 60) 2 (by norm_num)
  have e4 : drainSteps cfgQ 0 2 (0.2 - 1 / 60 - 1 / 60 - 1 / 60) (simQ 3) =
      drainSteps cfgQ 0 1 (0.2 - 1 / 60 - 1 / 60 - 1 / 60 - 1 / 60) (simQ 4) :=
    drainSteps_quiescent_step 1 (0.2 - 1 / 60 - 1 / 60 - 1 / 60) 3 (by norm_num)
  have e5 : drainSteps cfgQ 0 1 (0.2 - 1 / 60 - 1 / 60 - 1 / 60 - 1 / 60)
        (simQ 4) =
      drainSteps cfgQ 0 0 (0.2 - 1 / 60 - 1 / 60 - 1 / 60 - 1 / 60 - 1 / 60)
        (simQ 5) :=
    drainSteps_quiescent_step 0 (0.2 - 1 / 60 - 1 / 60 - 1 / 60 - 1 / 60) 4
      (by norm_num)
  have hdrain : (drainSteps cfgQ 0 5 0.2 (simQ 0)).2 = simQ 5 := by
    rw [e1, e2, e3, e4, e5]
    rfl
  have hfinal : (loopFrame cfgQ 0.2
      (resumeFrame (loopFrame cfgQ 0.2 lsP))).sim = simQ 5 := by
    rw [hres]
    simp only [loopFrame]
    rw [if_neg (show ¬((0.2 : ℝ) - 0.2 > 0.25) by norm_num)]
    rw [if_neg (show ¬((simQ 0).gs.isPaused = true) by simp [simQ, gsQ])]
    rw [if_neg (show ¬((simQ 0).gs.shakeStrength > 0) by norm_num [simQ, gsQ])]
    rw [show (0.2 : ℝ) + (0.2 - 0.2) = 0.2 by norm_num]
    rw [show ({ simQ 0 with gs := (simQ 0).gs } : Sim) = simQ 0 from rfl]
    exact congrArg Prod.snd (e1.trans (e2.trans (e3.trans (e4.trans e5))))
  refine ⟨by rw [h1], by rw [h1]; rfl, by rw [hfinal]; rfl⟩

lemma Vec.add_sub_cancel_self (p v : Vec) : (p.add v).sub p = v := by
  rw [Vec.add, Vec.sub]
  cases v with
  | mk vx vy => simp

lemma Vec.mk_add_sub_cancel (p v : Vec) : ((Vec.mk p.x p.y).add v).sub p = v :=
  Vec.add_sub_cancel_self p v

/-- C9 (amended): `launch` enters `FLYING` and builds the rocket with full
fuel and the computed launch velocity, positioned at the launch body's
center offset by `radius + 25 * scale` along the direction of the launch
velocity (aim impulse plus the launch body's own velocity) — not along the
raw aim direction. -/
theorem launch_spec (cfg : Config) (bodies : List Body) (earth : Body)
    (rocket : Option Body) (gs : GState)
    (hf : bodies.find? (fun b => b.btype == BType.target_start) = some earth) :
    ∃ r2 : Body,
      launch cfg bodies rocket gs =
        (some r2, { gs with mode := Mode.FLYING }) ∧
      r2.fuel = (getStats cfg.upgrades cfg.scaleFactor).maxFuel ∧
      r2.vel = (getLaunchVector cfg bodies).1 ∧
      r2.pos = (Vec.mk earth.pos.x earth.pos.y).add
        ((((getLaunchVector cfg bodies).1).normalize).mult
          (earth.radius + 25 * cfg.scaleFactor)) ∧
      (((getLaunchVector cfg bodies).1).mag ≠ 0 →
        0 ≤ earth.radius + 25 * cfg.scaleFactor →
        (r2.pos.sub earth.pos).mag = earth.radius + 25 * cfg.scaleFactor) := by
  simp only [launch, hf]
  refine ⟨_, rfl, rfl, rfl, rfl, ?_⟩
  intro hm hr
  show (((Vec.mk earth.pos.x earth.pos.y).add
      ((((getLaunchVector cfg bodies).1).normalize).mult
        (earth.radius + 25 * cfg.scaleFactor))).sub earth.pos).mag =
    earth.radius + 25 * cfg.scaleFactor
  rw [Vec.mk_add_sub_cancel, Vec.mag_mult, Vec.mag_normalize _ hm, mul_one,
    abs_of_nonneg hr]

/-- The launch vector at `cfgA` with the rightward-moving launch body:
full power toward (300, 0) plus the body velocity (2, 0). -/
lemma getLaunchVector_valA : getLaunchVector cfgA [earthA] = (Vec.mk 7 0, 1) := by
  have hm3 : (Vec.mk 300 0).mag = 300 :=
    Vec.mag_eq_of_sq _ 300 (by norm_num) (by norm_num)
  have hsub : cfgA.mouse.sub earthA.pos = Vec.mk 300 0 := by
    show Vec.sub (Vec.mk 300 0) (Vec.mk 0 0) = Vec.mk 300 0
    rw [Vec.sub]
    norm_num
  simp only [getLaunchVector,
    show List.find? (fun b => b.btype == BType.target_start) [earthA] =
      some earthA from rfl]
  rw [hsub, Vec.normalize, if_pos (by rw [hm3]; norm_num), hm3]
  show (Vec.add (Vec.mult (Vec.mk (300 / 300) (0 / 300)) _) earthA.vel, _) = _
  rw [Vec.mult, Vec.add]
  norm_num [Prod.mk.injEq, Vec.mk.injEq, getStats, cfgA, MAX_INPUT_DIST,
    earthA, mkBody]

/-- Witness for C9 (amended): launching at `cfgA` yields FLYING, 100 fuel
and launch velocity (7, 0). -/
theorem launch_spec_witness :
    (launch cfgA [earthA] none gsQ).2.mode = Mode.FLYING ∧
    Option.map Body.fuel (launch cfgA [earthA] none gsQ).1 = some 100 ∧
    Option.map Body.vel (launch cfgA [earthA] none gsQ).1 = some (Vec.mk 7 0) := by
  obtain ⟨r2, heq, hfuel, hvel, hpos, hmag⟩ :=
    launch_spec cfgA [earthA] earthA none gsQ rfl
  rw [heq]
  refine ⟨rfl, ?_, ?_⟩
  · show some r2.fuel = some 100
    rw [hfuel]
    norm_num [getStats, cfgA]
  · show some r2.vel = some (Vec.mk 7 0)
    rw [hvel, getLaunchVector_valA]

/-- The launch vector at `cfgA` with the upward-moving launch body
`earthC`: full power toward (300, 0) plus the body velocity (0, 5). -/
lemma getLaunchVector_valC : getLaunchVector cfgA [earthC] = (Vec.mk 5 5, 1) := by
  have hm3 : (Vec.mk 300 0).mag = 300 :=
    Vec.mag_eq_of_sq _ 300 (by norm_num) (by norm_num)
  have hsub : cfgA.mouse.sub earthC.pos = Vec.mk 300 0 := by
    show Vec.sub (Vec.mk 300 0) (Vec.mk 0 0) = Vec.mk 300 0
    rw [Vec.sub]
    norm_num
  simp only [getLaunchVector,
    show List.find? (fun b => b.btype == BType.target_start) [earthC] =
      some earthC from rfl]
  rw [hsub, Vec.normalize, if_pos (by rw [hm3]; norm_num), hm3]
  show (Vec.add (Vec.mult (Vec.mk (300 / 300) (0 / 300)) _) earthC.vel, _) = _
  rw [Vec.mult, Vec.add]
  norm_num [Prod.mk.injEq, Vec.mk.injEq, getStats, cfgA, MAX_INPUT_DIST,
    earthC, mkBody]

/-- Counterexample to C9 as stated: with the launch body moving upward at
(0, 5) and the aim point straight to the right, the spawned rocket is NOT
on the ray from the launch body toward the aim point: the spawn offset
follows the launch velocity (5, 5), whose direction differs from the aim
direction (1, 0). -/
theorem launch_offset_cex :
    Option.map Body.pos (launch cfgA [earthC] none gsQ).1 ≠
      some (earthC.pos.add
        (((cfgA.mouse.sub earthC.pos).normalize).mult
          (earthC.radius + 25 * cfgA.scaleFactor))) := by
  have hsq : (0 : ℝ) < Real.sqrt 50 := Real.sqrt_pos.mpr (by norm_num)
  have hmag55 : (Vec.mk 5 5).mag = Real.sqrt 50 := by
    rw [Vec.mag]
    norm_num
  have hlhs : Option.map Body.pos (launch cfgA [earthC] none gsQ).1 =
      some ((Vec.mk 0 0).add (((Vec.mk 5 5).normalize).mult 35)) := by
    simp only [launch,
      show List.find? (fun b => b.btype == BType.target_start) [earthC] =
        some earthC from rfl]
    rw [show (getLaunchVector cfgA [earthC]).1 = Vec.mk 5 5 from by
      rw [getLaunchVector_valC]]
    show some ((mkBody earthC.pos.x earthC.pos.y 1 4 cfgA.scaleFactor false
        BType.rocket).pos.add (((Vec.mk 5 5).normalize).mult
        (earthC.radius + 25 * cfgA.scaleFactor))) = _
    rw [show earthC.radius + 25 * cfgA.scaleFactor = 35 by
      norm_num [earthC, mkBody, cfgA]]
    rw [show (mkBody earthC.pos.x earthC.pos.y 1 4 cfgA.scaleFactor false
        BType.rocket).pos = Vec.mk 0 0 by
      show Vec.mk earthC.pos.x earthC.pos.y = Vec.mk 0 0
      norm_num [earthC, mkBody]]
  have hylhs : ((Vec.mk 0 0).add (((Vec.mk 5 5).normalize).mult 35)).y =
      5 / Real.sqrt 50 * 35 := by
    rw [Vec.normalize, if_pos (by rw [hmag55]; positivity), hmag55]
    show (0 : ℝ) + 5 / Real.sqrt 50 * 35 = 5 / Real.sqrt 50 * 35
    norm_num
  have hsub : cfgA.mouse.sub earthC.pos = Vec.mk 300 0 := by
    show Vec.sub (Vec.mk 300 0) (Vec.mk 0 0) = Vec.mk 300 0
    rw [Vec.sub]
    norm_num
  have hm3 : (Vec.mk 300 0).mag = 300 :=
    Vec.mag_eq_of_sq _ 300 (by norm_num) (by norm_num)
  have hyr : (earthC.pos.add
      (((cfgA.mouse.sub earthC.pos).normalize).mult
        (earthC.radius + 25 * cfgA.scaleFactor))).y = 0 := by
    rw [hsub, Vec.normalize, if_pos (by rw [hm3]; norm_num), hm3]
    show earthC.pos.y + 0 / 300 * (earthC.radius + 25 * cfgA.scaleFactor) = 0
    norm_num [earthC, mkBody]
  intro h
  rw [hlhs] at h
  have h' := Option.some.inj h
  have hy := congrArg Vec.y h'
  rw [hylhs, hyr] at hy
  have hpos' : (0 : ℝ) < 5 / Real.sqrt 50 * 35 := by positivity
  linarith

end

end MarsShot
